import Mathlib

/-!
Verification development for the genji-passkey repository.

We give a shallow embedding of the session-orchestration layer
(the W3PK context providers), the username validation of the
customization template, and the backup-restore dispatch of the
settings page, and prove the documented properties about them.

External collaborators (the w3pk SDK, the secrets.js Shamir library,
ethers, window.prompt, localStorage, IndexedDB) are modelled as
explicit environment parameters: each orchestrator function takes a
record of scripted responses for the external calls it makes, and
returns its result together with a trace of how many times each
external operation was invoked.
-/

namespace Genji

/-! ## String helpers (JS semantics) -/

/-- Does the second list occur as the initial segment of the first argument list?
Mirrors character-by-character comparison used below. -/
def listStartsWith : List Char → List Char → Bool
  | [], _ => true
  | _ :: _, [] => false
  | a :: as, b :: bs => a == b && listStartsWith as bs

/-- Does `pat` occur as a contiguous segment of the second list? -/
def listHasSub (pat : List Char) : List Char → Bool
  | [] => pat.isEmpty
  | c :: rest => listStartsWith pat (c :: rest) || listHasSub pat rest

/-- Model of the JavaScript `String.prototype.includes` test used by the
error-classification code. -/
def strIncludes (s pat : String) : Bool :=
  listHasSub pat.toList s.toList

/-- Model of `String.prototype.toLowerCase` on the ASCII strings
(hexadecimal Ethereum addresses) it is applied to. -/
def lowerStr (s : String) : String :=
  String.mk (s.toList.map Char.toLower)

/-- Whitespace characters stripped by `String.prototype.trim`
(restricted to the ASCII whitespace relevant to the inputs). -/
def isWsChar (c : Char) : Bool :=
  c == ' ' || c == '\t' || c == '\n' || c == '\r'

/-- Model of `input.trim()` on the character list of the input. -/
def trimChars (l : List Char) : List Char :=
  ((l.dropWhile isWsChar).reverse.dropWhile isWsChar).reverse

/-- The character class `[a-zA-Z0-9]` of the username regex. -/
def isAlnumChar (c : Char) : Bool :=
  ('a' ≤ c && c ≤ 'z') || ('A' ≤ c && c ≤ 'Z') || ('0' ≤ c && c ≤ '9')

/-- The character class `[a-zA-Z0-9_-]` of the username regex. -/
def isUsernameChar (c : Char) : Bool :=
  isAlnumChar c || c == '_' || c == '-'

/-! ## customize.js: username validation and the registration gate -/

/-- Whether the regex of `validateUsername` in customize.js,
`[a-zA-Z0-9]([a-zA-Z0-9_-]*[a-zA-Z0-9])?` anchored at both ends,
matches the given character list: either a single alphanumeric
character, or an alphanumeric character followed by a block of
username characters whose final character is alphanumeric. -/
def usernameRegexAccepts : List Char → Bool
  | [] => false
  | c :: rest =>
    isAlnumChar c &&
      (rest.isEmpty || (rest.all isUsernameChar && isAlnumChar (rest.getLastD c)))

/-- Model of `validateUsername` from customize.js: a blank (empty after
trimming) input is accepted outright; otherwise the trimmed input must
match the regex and have length between 3 and 50. -/
def validateUsername (input : String) : Bool :=
  let t := trimChars input.toList
  if t.isEmpty then true
  else usernameRegexAccepts t && decide (3 ≤ t.length) && decide (t.length ≤ 50)

/-- The username shape the specification describes, written from the words
of the claim (length 3 to 50, alphanumerics, underscores and hyphens only,
first and last character alphanumeric), for comparison with the
implementation-side `validateUsername`. -/
def claimedUsernameShape (l : List Char) : Bool :=
  decide (3 ≤ l.length) && decide (l.length ≤ 50) && l.all isUsernameChar &&
    (match l with
     | [] => false
     | c :: rest => isAlnumChar c && isAlnumChar (rest.getLastD c))

/-- Outcome of the guard sequence at the top of `handleRegister` in
customize.js: blank input is blocked by the dedicated empty-input guard,
invalid input by `validateUsername`, and otherwise registration proceeds
with the trimmed username. -/
inductive RegisterOutcome where
  | usernameRequired
  | invalidUsername
  | proceed (trimmed : String)
deriving DecidableEq

/-- Model of the input-validation portion of `handleRegister` in
customize.js. -/
def handleRegister (username : String) : RegisterOutcome :=
  if (trimChars username.toList).isEmpty then RegisterOutcome.usernameRequired
  else if !(validateUsername username) then RegisterOutcome.invalidUsername
  else RegisterOutcome.proceed (String.mk (trimChars username.toList))

example : validateUsername "alice" = true := by decide
example : validateUsername "alice-2" = true := by decide
example : validateUsername "a1_b2" = true := by decide
example : validateUsername "al" = false := by decide
example : validateUsername "_abc" = false := by decide
example : validateUsername "abc-" = false := by decide
example : validateUsername "" = true := by decide
example : validateUsername "   " = true := by decide
example : validateUsername (String.mk (List.replicate 50 'a')) = true := by decide
example : validateUsername (String.mk (List.replicate 51 'a')) = false := by decide
example : handleRegister "  " = RegisterOutcome.usernameRequired := by decide
example : handleRegister " bob " = RegisterOutcome.proceed "bob" := by decide

/-! ## Data model of the session orchestrator (the W3PK context providers) -/

/-- The user record projected by `handleAuthStateChanged`. -/
structure W3pkUser where
  id : String
  username : String
  displayName : String
  ethereumAddress : String
  credentialId : String
deriving DecidableEq

/-- Result of `deriveWallet`. -/
structure DerivedWallet where
  address : String
  privateKey : Option String := none
  publicKey : Option String := none
deriving DecidableEq

/-- The security-score part of a backup-status snapshot. -/
structure SecurityScore where
  total : Nat
  level : String
  nextMilestone : Option String := none
  breakdown : List (String × Nat) := []
deriving DecidableEq

/-- The read-only backup-status snapshot returned by the SDK. -/
structure BackupStatus where
  securityScore : SecurityScore
  passkeySyncEnabled : Option Bool := none
  recoveryPhraseVerified : Option Bool := none
  backupExists : Option Bool := none
deriving DecidableEq

/-- Status of a guardian record. -/
inductive GuardianStatus where
  | pending
  | active
  | revoked
deriving DecidableEq

/-- A guardian record as produced by social-recovery setup. -/
structure Guardian where
  id : String
  name : String
  email : Option String := none
  phone : Option String := none
  shareEncrypted : String
  status : GuardianStatus
  addedAt : String
  lastVerified : Option String := none
deriving DecidableEq

/-- Guardian contact data supplied to `setupSocialRecovery`. -/
structure GuardianInput where
  name : String
  email : Option String := none
  phone : Option String := none
deriving DecidableEq

/-- The social-recovery configuration persisted to local storage. -/
structure SocialRecoveryConfig where
  threshold : Nat
  totalGuardians : Nat
  guardians : List Guardian
  createdAt : String
  ethereumAddress : String
deriving DecidableEq

/-! ## The authenticated-call machinery of the current provider

Each operation of the provider talks to the external w3pk SDK.  We model
the SDK by a script of responses: the n-th invocation of the underlying
SDK operation receives the n-th entry of `opResults`, and likewise for
`login()`.  Every run returns the value the orchestrator produces
together with a `CallTrace` counting how many times the SDK operation
and `login()` were invoked. -/

/-- Invocation counters for one orchestrator call. -/
structure CallTrace where
  opCalls : Nat := 0
  loginCalls : Nat := 0
deriving DecidableEq

/-- Scripted behaviour of the SDK for a single orchestrator operation whose
underlying SDK call returns values of type `α`. -/
structure OpEnv (α : Type) where
  hasActiveSession : Bool
  opResults : List (Except String α)
  loginResults : List (Except String Unit)

/-- Perform the scripted SDK operation: consume the next entry of
`opResults` and bump the counter. -/
def takeOp {α : Type} (env : OpEnv α) (t : CallTrace) : Except String α × CallTrace :=
  (env.opResults.getD t.opCalls (Except.error "unscripted SDK call"),
    { t with opCalls := t.opCalls + 1 })

/-- Perform a scripted `login()`: consume the next entry of `loginResults`
and bump the counter. -/
def takeLogin {α : Type} (env : OpEnv α) (t : CallTrace) : Except String Unit × CallTrace :=
  (env.loginResults.getD t.loginCalls (Except.error "unscripted login call"),
    { t with loginCalls := t.loginCalls + 1 })

namespace Ctx

/-- The retry signature of `deriveWallet` in the current provider:
the caught message is tested with three `includes` checks. -/
def deriveRetrySig (e : String) : Bool :=
  strIncludes e "Not authenticated" || strIncludes e "login" ||
    strIncludes e "Failed to derive wallet"

/-- The retry signature of `getAddress` in the current provider. -/
def getAddressRetrySig (e : String) : Bool :=
  strIncludes e "Not authenticated" || strIncludes e "login" ||
    strIncludes e "Failed to get address"

/-- The retry signature shared by `getBackupStatus` and `createBackup`
in the current provider. -/
def backupRetrySig (e : String) : Bool :=
  strIncludes e "Must be authenticated" || strIncludes e "login"

/-- The catch block of `deriveWallet`: a matching error triggers exactly
one forced login followed by one retry of the SDK operation; any other
error is rethrown unchanged. -/
def deriveCatch (env : OpEnv DerivedWallet) (e : String) (t : CallTrace) :
    Except String DerivedWallet × CallTrace :=
  if deriveRetrySig e then
    let (lr, t1) := takeLogin env t
    match lr with
    | Except.error re => (Except.error re, t1)
    | Except.ok _ => takeOp env t1
  else (Except.error e, t)

/-- Model of `deriveWallet` in the current provider: fail fast when no
user is present, run `ensureAuthentication` (a login when no session is
active), invoke the SDK operation, and on a matching failure retry once
after a forced login. -/
def deriveWallet (env : OpEnv DerivedWallet) (user : Option W3pkUser) :
    Except String DerivedWallet × CallTrace :=
  match user with
  | none => (Except.error "Not authenticated. Please log in first.", {})
  | some _ =>
    if env.hasActiveSession then
      let (r, t1) := takeOp env {}
      match r with
      | Except.ok w => (Except.ok w, t1)
      | Except.error e => deriveCatch env e t1
    else
      let (lr, t1) := takeLogin env ({} : CallTrace)
      match lr with
      | Except.error e => deriveCatch env e t1
      | Except.ok _ =>
        let (r, t2) := takeOp env t1
        match r with
        | Except.ok w => (Except.ok w, t2)
        | Except.error e => deriveCatch env e t2

/-- The catch block of `getAddress`, identical in shape to that of
`deriveWallet` but with its own message signature. -/
def getAddressCatch (env : OpEnv String) (e : String) (t : CallTrace) :
    Except String String × CallTrace :=
  if getAddressRetrySig e then
    let (lr, t1) := takeLogin env t
    match lr with
    | Except.error re => (Except.error re, t1)
    | Except.ok _ => takeOp env t1
  else (Except.error e, t)

/-- Model of `getAddress` in the current provider. -/
def getAddress (env : OpEnv String) (user : Option W3pkUser) :
    Except String String × CallTrace :=
  match user with
  | none => (Except.error "Not authenticated. Please log in first.", {})
  | some _ =>
    if env.hasActiveSession then
      let (r, t1) := takeOp env {}
      match r with
      | Except.ok a => (Except.ok a, t1)
      | Except.error e => getAddressCatch env e t1
    else
      let (lr, t1) := takeLogin env ({} : CallTrace)
      match lr with
      | Except.error e => getAddressCatch env e t1
      | Except.ok _ =>
        let (r, t2) := takeOp env t1
        match r with
        | Except.ok a => (Except.ok a, t2)
        | Except.error e => getAddressCatch env e t2

/-- The inner catch of `getBackupStatus`: retry once after a forced login
when the message matches, otherwise rethrow. -/
def getBackupStatusCatch (env : OpEnv BackupStatus) (e : String) (t : CallTrace) :
    Except String BackupStatus × CallTrace :=
  if backupRetrySig e then
    let (lr, t1) := takeLogin env t
    match lr with
    | Except.error re => (Except.error re, t1)
    | Except.ok _ => takeOp env t1
  else (Except.error e, t)

/-- Model of `getBackupStatus` in the current provider: requires an
authenticated user and SDK support, does not call `ensureAuthentication`,
and retries the SDK call once after a forced login on a matching error. -/
def getBackupStatus (env : OpEnv BackupStatus) (isAuthenticated : Bool)
    (user : Option W3pkUser) (supported : Bool) :
    Except String BackupStatus × CallTrace :=
  if !isAuthenticated || user.isNone then
    (Except.error "User not authenticated. Cannot check backup status.", {})
  else if !supported then
    (Except.error "w3pk SDK does not support getBackupStatus.", {})
  else
    let (r, t1) := takeOp env {}
    match r with
    | Except.ok res => (Except.ok res, t1)
    | Except.error e => getBackupStatusCatch env e t1

/-- The inner catch of `createBackup`, identical in shape to that of
`getBackupStatus`. -/
def createBackupCatch (env : OpEnv String) (e : String) (t : CallTrace) :
    Except String String × CallTrace :=
  if backupRetrySig e then
    let (lr, t1) := takeLogin env t
    match lr with
    | Except.error re => (Except.error re, t1)
    | Except.ok _ => takeOp env t1
  else (Except.error e, t)

/-- Model of `createBackup` in the current provider; the opaque encrypted
blob is carried as a string. The password argument does not influence the
control flow (it is forwarded to the scripted SDK call). -/
def createBackup (env : OpEnv String) (isAuthenticated : Bool)
    (user : Option W3pkUser) (supported : Bool) (password : String) :
    Except String String × CallTrace :=
  let _ := password
  if !isAuthenticated || user.isNone then
    (Except.error "User not authenticated. Cannot create backup.", {})
  else if !supported then
    (Except.error "w3pk SDK does not support createBackupFile.", {})
  else
    let (r, t1) := takeOp env {}
    match r with
    | Except.ok blob => (Except.ok blob, t1)
    | Except.error e => createBackupCatch env e t1

/-- Model of `signMessage` in the current provider: with no user it
returns null (modelled as `none`) without touching the SDK; otherwise it
runs `ensureAuthentication` and the SDK call, and on ANY failure returns
null — there is no retry and no rethrow in this operation. -/
def signMessage (env : OpEnv String) (user : Option W3pkUser) :
    Except String (Option String) × CallTrace :=
  match user with
  | none => (Except.ok none, {})
  | some _ =>
    if env.hasActiveSession then
      let (r, t1) := takeOp env {}
      match r with
      | Except.ok sig => (Except.ok (some sig), t1)
      | Except.error _ => (Except.ok none, t1)
    else
      let (lr, t1) := takeLogin env ({} : CallTrace)
      match lr with
      | Except.error _ => (Except.ok none, t1)
      | Except.ok _ =>
        let (r, t2) := takeOp env t1
        match r with
        | Except.ok sig => (Except.ok (some sig), t2)
        | Except.error _ => (Except.ok none, t2)

/-! ## Session state and the auth-state-changed callback -/

/-- The pair of React states `(isAuthenticated, user)` managed by the
provider. -/
structure SessionState where
  isAuthenticated : Bool
  user : Option W3pkUser
deriving DecidableEq

/-- The state at mount: unauthenticated, no user. -/
def initialSessionState : SessionState :=
  { isAuthenticated := false, user := none }

/-- Model of `handleAuthStateChanged` in the current provider: when the
SDK reports an authenticated state together with a user object, both
fields are set together; in every other case both are cleared together. -/
def handleAuthStateChanged (isAuth : Bool) (w3pkUser : Option W3pkUser)
    (s : SessionState) : SessionState :=
  let _ := s
  match isAuth, w3pkUser with
  | true, some u => { isAuthenticated := true, user := some u }
  | true, none => { isAuthenticated := false, user := none }
  | false, _ => { isAuthenticated := false, user := none }

/-- The events that can reach the session-state pair: an invocation of
the auth-state-changed callback, or a call to the provider `logout`
(which clears the SDK and the IndexedDB store but does not itself write
the React pair; the SDK then reports the change through the callback). -/
inductive AuthEvent where
  | authChanged (isAuth : Bool) (u : Option W3pkUser)
  | logoutCall
deriving DecidableEq

/-- One step of the session-state machine. -/
def stepAuth (s : SessionState) : AuthEvent → SessionState
  | AuthEvent.authChanged a u => handleAuthStateChanged a u s
  | AuthEvent.logoutCall => s

/-- The session state reached from the mount state by a sequence of
events. -/
def runAuthEvents (evs : List AuthEvent) : SessionState :=
  evs.foldl stepAuth initialSessionState

/-! ## Mount-time session recovery (`checkExistingAuth`) -/

/-- Possible behaviours of the IndexedDB persistent-session probe
(`checkIndexedDBForPersistentSession`) when it is started: it can
resolve to a boolean, reject, or hang past the 3-second race. -/
inductive ProbeSpec where
  | resolves (b : Bool)
  | rejects
  | hangs
deriving DecidableEq

/-- Environment of `checkExistingAuth`: the mount flag, the in-memory
SDK session and its user, the persistent-store probe behaviour, and the
outcome of a silent `login()` (on success the SDK fires the callback
with its user). -/
structure MountEnv where
  isMounted : Bool
  hasActiveSession : Bool
  sdkUser : Option W3pkUser
  probe : ProbeSpec
  loginOutcome : Except String W3pkUser

/-- Result of running `checkExistingAuth`: the resulting session state
and whether the persistent-store probe was started at all. -/
structure MountResult where
  state : SessionState
  probeStarted : Bool
deriving DecidableEq

/-- Model of `checkExistingAuth` in the current provider.

Priority order as in the source: (a) an active in-memory SDK session
with a user is adopted immediately and the function returns before the
probe is created; (b) otherwise the probe is raced against a 3-second
timeout (a hang therefore resolves to `false`), and a present persistent
session leads to a silent `login()` whose failure is treated as logged
out; (c) otherwise the state is cleared.  A rejecting probe is caught by
the surrounding try/catch, which also clears the state. -/
def checkExistingAuth (env : MountEnv) (s : SessionState) : MountResult :=
  if !env.isMounted then { state := s, probeStarted := false }
  else if env.hasActiveSession && env.sdkUser.isSome then
    { state := handleAuthStateChanged true env.sdkUser s, probeStarted := false }
  else
    match env.probe with
    | ProbeSpec.rejects =>
      { state := handleAuthStateChanged false none s, probeStarted := true }
    | ProbeSpec.hangs =>
      { state := handleAuthStateChanged false none s, probeStarted := true }
    | ProbeSpec.resolves b =>
      if b then
        match env.loginOutcome with
        | Except.ok u =>
          { state := handleAuthStateChanged true (some u) s, probeStarted := true }
        | Except.error _ =>
          { state := handleAuthStateChanged false none s, probeStarted := true }
      else { state := handleAuthStateChanged false none s, probeStarted := true }

end Ctx

namespace Settings

/-! ## Restore dispatch of the settings page (`handleRestorePasswordSubmit`)

The handler parses the selected backup payload as JSON and decides
whether to unwrap an inner encrypted entry, reject the payload as an
incompatible legacy backup, or pass the original text to the normal
restore operation. -/

/-- A JSON value, as far as the dispatch logic observes it. -/
inductive Json where
  | null
  | bool (b : Bool)
  | num (n : Int)
  | str (s : String)
  | arr (elems : List Json)
  | obj (fields : List (String × Json))

/-- JavaScript truthiness of a JSON value. -/
def jsTruthy : Json → Bool
  | Json.null => false
  | Json.bool b => b
  | Json.num n => decide (n ≠ 0)
  | Json.str s => decide (s ≠ "")
  | Json.arr _ => true
  | Json.obj _ => true

/-- Property access `j[key]`: defined only on objects; on every other
value the dispatch code observes an absent (falsy) property, which
matches the behaviour of the surrounding try/catch for values such as
`null`. -/
def jsonGet (j : Json) (key : String) : Option Json :=
  match j with
  | Json.obj fields => fields.lookup key
  | _ => none

/-- Truthiness of the property `key` of `j`; an absent property is falsy. -/
def truthyAt (j : Json) (key : String) : Bool :=
  (jsonGet j key).elim false jsTruthy

/-- What `handleRestorePasswordSubmit` does with the selected payload. -/
inductive RestoreAction where
  | noFileToast
  | incompatible (title : String)
  | restoreOriginal (raw : String)
  | restoreInner (v : Json)

/-- Model of the dispatch logic of `handleRestorePasswordSubmit` in the
settings page: `parse` stands for `JSON.parse` (`none` when it throws).
A truthy `recovery-phrase.txt.enc` entry is unwrapped and restored; else
a payload with no truthy `version` but a truthy `encrypted` or
`mnemonic` entry is rejected with the incompatible-version message; in
every other case the original text goes to the normal restore call. -/
def handleRestorePasswordSubmit (selected : Option String)
    (parse : String → Option Json) : RestoreAction :=
  match selected with
  | none => RestoreAction.noFileToast
  | some f =>
    match parse f with
    | none => RestoreAction.restoreOriginal f
    | some j =>
      if truthyAt j "recovery-phrase.txt.enc" then
        RestoreAction.restoreInner ((jsonGet j "recovery-phrase.txt.enc").getD Json.null)
      else if !(truthyAt j "version") && (truthyAt j "encrypted" || truthyAt j "mnemonic") then
        RestoreAction.incompatible "Incompatible Backup Version"
      else RestoreAction.restoreOriginal f

end Settings

namespace Ctx

/-! ## Social-recovery setup of the current provider

The current provider collects a backup password, creates a
password-encrypted backup file through the SDK, and hands the encrypted
backup text to the external `SocialRecoveryManager` for splitting. -/

/-- Modelled from the spec: `SocialRecoveryManager.setupSocialRecovery` of
the external w3pk package is not part of this repository.  Per the spec,
guardians receive shares of the encrypted backup: the manager splits its
backup-JSON argument into one share per guardian under the given
threshold and returns one guardian record per contact, carrying one
share each.  The threshold splitting function itself stays abstract. -/
def managerSetupSocialRecovery (split : String → Nat → Nat → List String)
    (backupJson : String) (ethereumAddress : String)
    (guardians : List GuardianInput) (threshold : Nat) : List Guardian :=
  let _ := ethereumAddress
  let shares := split backupJson guardians.length threshold
  guardians.enum.map (fun p =>
    { id := "guardian-" ++ toString p.1
      name := p.2.name
      email := p.2.email
      phone := p.2.phone
      shareEncrypted := shares.getD p.1 ""
      status := GuardianStatus.pending
      addedAt := "" })

/-- JavaScript `password || window.prompt(...)`: a missing or empty
password argument falls through to the interactive prompt.  Returns the
effective value and whether the prompt was consulted. -/
def jsOrPrompt (password : Option String) (promptResult : Option String) :
    Option String × Bool :=
  match password with
  | some p => if p = "" then (promptResult, true) else (some p, false)
  | none => (promptResult, true)

/-- Environment of the current `setupSocialRecovery`: authentication
state, the `ensureAuthentication` login script, the interactive prompt
result (`none` models a cancelled prompt returning null), the SDK call
`createBackupFile("password", pw)` producing the encrypted backup text,
and the abstract splitting function of the manager. -/
structure SetupEnv where
  isAuthenticated : Bool
  user : Option W3pkUser
  hasActiveSession : Bool
  loginResult : Except String Unit
  promptResult : Option String
  createPasswordBackup : String → Except String String
  split : String → Nat → Nat → List String

/-- Outcome of the current `setupSocialRecovery`: the returned guardian
list or error, whether the password prompt was shown, and which text was
handed to the manager for splitting (`none` when splitting never
happened). -/
structure SetupOutcome where
  result : Except String (List Guardian)
  prompted : Bool
  managerBackupArg : Option String

/-- Model of `setupSocialRecovery` in the current provider. -/
def setupSocialRecovery (env : SetupEnv) (guardians : List GuardianInput)
    (threshold : Nat) (password : Option String) : SetupOutcome :=
  if !env.isAuthenticated || env.user.isNone then
    ⟨Except.error "User not authenticated. Cannot setup social recovery.", false, none⟩
  else
    let ens : Except String Unit :=
      if env.hasActiveSession then Except.ok () else env.loginResult
    match ens with
    | Except.error e => ⟨Except.error e, false, none⟩
    | Except.ok _ =>
      let (pwOpt, prompted) := jsOrPrompt password env.promptResult
      match pwOpt with
      | none =>
        ⟨Except.error "Password is required for social recovery setup", prompted, none⟩
      | some pw =>
        if pw = "" then
          ⟨Except.error "Password is required for social recovery setup", prompted, none⟩
        else
          match env.createPasswordBackup pw with
          | Except.error e => ⟨Except.error e, prompted, none⟩
          | Except.ok backupJson =>
            let ethAddr := (env.user.map W3pkUser.ethereumAddress).getD ""
            ⟨Except.ok (managerSetupSocialRecovery env.split backupJson ethAddr
                guardians threshold),
              prompted, some backupJson⟩

end Ctx

namespace LegacyCtx

/-! ## The legacy provider (src/src/context/W3PK.tsx)

The legacy provider implements social recovery inline: it obtains the
raw mnemonic from a passkey backup, splits the mnemonic with secrets.js,
and verifies recovery by re-deriving the Ethereum address with ethers. -/

/-- One hexadecimal digit. -/
def hexDigitChar (n : Nat) : Char :=
  if n < 10 then Char.ofNat ('0'.toNat + n) else Char.ofNat ('a'.toNat + n - 10)

/-- Two hexadecimal digits of one byte. -/
def byteToHex (n : Nat) : List Char :=
  [hexDigitChar ((n % 256) / 16), hexDigitChar (n % 16)]

/-- Hex encoding of the UTF-8 bytes of a string, modelling
`Buffer.from(mnemonic, "utf8").toString("hex")` on the ASCII strings
(BIP-39 mnemonics) it is applied to, where each character is one byte. -/
def asciiHex (s : String) : String :=
  String.mk (s.toList.flatMap (fun c => byteToHex c.toNat))

/-- Environment of the legacy `setupSocialRecovery`: authentication
state, the login script, `createBackupFile("passkey")`, the
`restoreFromBackupFile(backupJson, "")` call that extracts the raw
mnemonic, the abstract `secrets.share`, the UUIDs minted for the
guardian records, and the timestamp. -/
structure LegacyEnv where
  isAuthenticated : Bool
  user : Option W3pkUser
  hasActiveSession : Bool
  loginResult : Except String Unit
  passkeyBackup : Except String String
  restoreMnemonic : String → Except String String
  share : String → Nat → Nat → List String
  uuids : List String
  nowIso : String

/-- Model of `splitSecret` in the legacy provider: hex-encode the
mnemonic and hand it to `secrets.share(mnemonicHex, shares, threshold)`. -/
def splitSecret (env : LegacyEnv) (mnemonic : String) (threshold shares : Nat) :
    List String :=
  env.share (asciiHex mnemonic) shares threshold

/-- Outcome of the legacy `setupSocialRecovery`: the guardian list or
error, whether any password prompt was shown (the legacy code contains
none), the secret handed to `secrets.share` (`none` when splitting never
happened), and the configuration written to local storage. -/
structure LegacySetupOutcome where
  result : Except String (List Guardian)
  prompted : Bool
  splitSecretArg : Option String
  storedConfig : Option SocialRecoveryConfig

/-- Model of `setupSocialRecovery` in the legacy provider.  The password
parameter exists in the signature but is never read; no prompt is shown;
the secret that is split is the hex encoding of the raw mnemonic.  (The
intermediate `JSON.parse(backupJson)` of the source binds an unused
variable and is elided for the SDK-produced JSON it is applied to.) -/
def setupSocialRecovery (env : LegacyEnv) (guardians : List GuardianInput)
    (threshold : Nat) (password : Option String) : LegacySetupOutcome :=
  let _ := password
  if !env.isAuthenticated || env.user.isNone then
    ⟨Except.error "User not authenticated. Cannot setup social recovery.", false, none, none⟩
  else
    let ens : Except String Unit :=
      if env.hasActiveSession then Except.ok () else env.loginResult
    match ens with
    | Except.error e => ⟨Except.error e, false, none, none⟩
    | Except.ok _ =>
      match env.passkeyBackup with
      | Except.error e => ⟨Except.error e, false, none, none⟩
      | Except.ok backupJson =>
        match env.restoreMnemonic backupJson with
        | Except.error e => ⟨Except.error e, false, none, none⟩
        | Except.ok mnemonic =>
          let shares := splitSecret env mnemonic threshold guardians.length
          let gObjs := guardians.enum.map (fun p =>
            { id := env.uuids.getD p.1 ""
              name := p.2.name
              email := p.2.email
              shareEncrypted := shares.getD p.1 ""
              status := GuardianStatus.pending
              addedAt := env.nowIso })
          let config : SocialRecoveryConfig :=
            { threshold := threshold
              totalGuardians := guardians.length
              guardians := gObjs
              createdAt := env.nowIso
              ethereumAddress := (env.user.map W3pkUser.ethereumAddress).getD "" }
          ⟨Except.ok gObjs, false, some (asciiHex mnemonic), some config⟩

/-- Environment of the legacy `recoverFromGuardians`: the configuration
read from local storage, the share extraction `JSON.parse(data).share`
(`none` when parsing throws), the abstract `secrets.combine` followed by
hex decoding (`none` when it throws), and the ethers
`Wallet.fromPhrase` address derivation (`none` when the reconstructed
text is not a valid mnemonic). -/
structure RecoverEnv where
  config : Option SocialRecoveryConfig
  parseShare : String → Option String
  combine : List String → Option String
  fromPhrase : String → Option String

/-- The share-extraction loop `shareData.map(data => JSON.parse(data).share)`:
the first throwing extraction aborts the whole map. -/
def extractShares (parse : String → Option String) : List String → Option (List String)
  | [] => some []
  | d :: rest =>
    match parse d, extractShares parse rest with
    | some x, some xs => some (x :: xs)
    | _, _ => none

/-- Model of `recoverFromGuardians` in the legacy provider: fail when no
configuration exists or fewer share strings than the threshold are
supplied; otherwise extract the shares, combine them, derive the
address of the reconstructed mnemonic, and compare it (lower-cased)
with the address recorded at setup time. -/
def recoverFromGuardians (env : RecoverEnv) (shareData : List String) :
    Except String (String × String) :=
  match env.config with
  | none => Except.error "Social recovery not configured"
  | some config =>
    if shareData.length < config.threshold then
      Except.error ("Need at least " ++ toString config.threshold ++
        " shares, got " ++ toString shareData.length)
    else
      match extractShares env.parseShare shareData with
      | none => Except.error "share parse failed"
      | some shares =>
        match env.combine shares with
        | none => Except.error "combine failed"
        | some mnemonic =>
          match env.fromPhrase mnemonic with
          | none => Except.error "invalid mnemonic"
          | some address =>
            if lowerStr address ≠ lowerStr config.ethereumAddress then
              Except.error "Recovered address does not match - invalid shares"
            else Except.ok (mnemonic, address)

end LegacyCtx

/-! ## Shared sample data and helper lemmas -/

open Ctx

/-- A sample user record, used by concrete instantiations. -/
def sampleUser : W3pkUser :=
  { id := "id-1", username := "alice", displayName := "Alice"
    ethereumAddress := "0xAbCd", credentialId := "cred-1" }

/-- A sample backup-status snapshot. -/
def sampleStatus : BackupStatus :=
  { securityScore := { total := 40, level := "basic" } }

/-- A step of the session-state machine leaves the invariant
"authenticated implies a user is present" intact. -/
lemma stepAuth_preserves (s : SessionState) (e : AuthEvent)
    (h : s.isAuthenticated = true → s.user ≠ none) :
    (stepAuth s e).isAuthenticated = true → (stepAuth s e).user ≠ none := by
  cases e with
  | authChanged a u =>
    cases a <;> cases u <;> simp [stepAuth, handleAuthStateChanged]
  | logoutCall => exact h

/-- The invariant is preserved along any event sequence. -/
lemma foldl_stepAuth_preserves :
    ∀ (evs : List AuthEvent) (s : SessionState),
      (s.isAuthenticated = true → s.user ≠ none) →
      ((evs.foldl stepAuth s).isAuthenticated = true →
        (evs.foldl stepAuth s).user ≠ none) := by
  intro evs
  induction evs with
  | nil => intro s h; simpa using h
  | cons e rest ih =>
    intro s h
    simpa using ih (stepAuth s e) (stepAuth_preserves s e h)

/-- Successful share extraction preserves the length of its input. -/
lemma extractShares_length (parse : String → Option String) :
    ∀ (l : List String) (l' : List String),
      LegacyCtx.extractShares parse l = some l' → l'.length = l.length := by
  intro l
  induction l with
  | nil => intro l' h; simp [LegacyCtx.extractShares] at h; simp [← h]
  | cons d rest ih =>
    intro l' h
    simp only [LegacyCtx.extractShares] at h
    cases hp : parse d with
    | none => rw [hp] at h; simp at h
    | some x =>
      rw [hp] at h
      cases he : LegacyCtx.extractShares parse rest with
      | none => rw [he] at h; simp at h
      | some xs =>
        rw [he] at h
        simp at h
        subst h
        simp [ih xs he]

/-- The username regex matches a nonempty character list exactly when
all characters are username characters and the first and last characters
are alphanumeric. -/
lemma usernameRegex_eq (c : Char) (rest : List Char) :
    usernameRegexAccepts (c :: rest)
      = ((c :: rest).all isUsernameChar && isAlnumChar c &&
          isAlnumChar (rest.getLastD c)) := by
  cases hc : isAlnumChar c with
  | false => simp [usernameRegexAccepts, hc]
  | true =>
    have hu : isUsernameChar c = true := by simp [isUsernameChar, hc]
    cases rest with
    | nil => simp [usernameRegexAccepts, hc, hu]
    | cons d ds => simp [usernameRegexAccepts, hc, hu]

/-! ## Claim theorems -/

/-- C8: in every reachable session state of the orchestrator,
isAuthenticated implies a user is present; and every single callback
step either sets an authenticated state with a user or clears both
fields together (a provider `logout` call does not itself write the
pair). -/
theorem C8_session_invariant :
    (∀ evs : List AuthEvent,
      (runAuthEvents evs).isAuthenticated = true → (runAuthEvents evs).user ≠ none) ∧
    (∀ (s : SessionState) (a : Bool) (u : Option W3pkUser),
      (∃ v, stepAuth s (AuthEvent.authChanged a u) =
        { isAuthenticated := true, user := some v }) ∨
      stepAuth s (AuthEvent.authChanged a u) =
        { isAuthenticated := false, user := none }) := by
  constructor
  · intro evs
    exact foldl_stepAuth_preserves evs initialSessionState (by simp [initialSessionState])
  · intro s a u
    cases a <;> cases u <;> simp [stepAuth, handleAuthStateChanged]

/-- Witness for C8 at a concrete event sequence. -/
theorem C8_session_invariant_witness :
    (runAuthEvents [AuthEvent.authChanged true (some sampleUser)]).user ≠ none :=
  C8_session_invariant.1 [AuthEvent.authChanged true (some sampleUser)] (by decide)

/-- C9: `signMessage` called without a user returns null (it does not
throw) and invokes neither the SDK signing operation nor `login()`. -/
theorem C9_signMessage_unauthenticated_returns_null :
    ∀ env : OpEnv String,
      Ctx.signMessage env none =
        (Except.ok none, { opCalls := 0, loginCalls := 0 }) := by
  intro env
  rfl

/-- C5: an active in-memory SDK session with a user short-circuits
mount-time recovery; the persistent-store probe is never started, so
recovery succeeds for every probe behaviour, including one that would
reject or hang. -/
theorem C5_in_memory_session_short_circuits :
    ∀ (env : MountEnv) (s : SessionState) (u : W3pkUser),
      env.isMounted = true → env.hasActiveSession = true → env.sdkUser = some u →
      checkExistingAuth env s =
        { state := { isAuthenticated := true, user := some u },
          probeStarted := false } := by
  intro env s u hm ha hu
  simp [checkExistingAuth, hm, ha, hu, handleAuthStateChanged]

/-- Witness for C5 with a probe scripted to reject. -/
theorem C5_in_memory_session_short_circuits_witness :
    checkExistingAuth
      { isMounted := true, hasActiveSession := true, sdkUser := some sampleUser
        probe := ProbeSpec.rejects
        loginOutcome := Except.error "probe path must never run" }
      initialSessionState =
      { state := { isAuthenticated := true, user := some sampleUser },
        probeStarted := false } :=
  C5_in_memory_session_short_circuits
    { isMounted := true, hasActiveSession := true, sdkUser := some sampleUser
      probe := ProbeSpec.rejects
      loginOutcome := Except.error "probe path must never run" }
    initialSessionState sampleUser rfl rfl rfl

/-- C10: `validateUsername` accepts the empty string and every input
whose trimmed form is empty, although the empty list matches none of
the accepted username shapes; blank registrations are blocked only by
the separate empty-input guard of `handleRegister`. -/
theorem C10_blank_input_accepted :
    validateUsername "" = true ∧
    claimedUsernameShape [] = false ∧
    (∀ s : String, trimChars s.toList = [] → validateUsername s = true) ∧
    (∀ s : String, trimChars s.toList = [] →
      handleRegister s = RegisterOutcome.usernameRequired) := by
  refine ⟨by decide, by decide, ?_, ?_⟩
  · intro s h
    have h2 : trimChars s.data = [] := h
    simp [validateUsername, h2]
  · intro s h
    have h2 : trimChars s.data = [] := h
    simp [handleRegister, h2]

/-- Witness for C10 at a whitespace-only input. -/
theorem C10_blank_input_accepted_witness :
    validateUsername "   " = true ∧
    handleRegister "   " = RegisterOutcome.usernameRequired :=
  ⟨C10_blank_input_accepted.2.2.1 "   " (by decide),
    C10_blank_input_accepted.2.2.2 "   " (by decide)⟩

/-- C7 counterexample: the empty string is accepted by
`validateUsername` although it has none of the claimed accepted shapes,
so the validator does not accept exactly the claimed set. -/
theorem C7_counterexample :
    validateUsername "" = true ∧ claimedUsernameShape ([] : List Char) = false := by
  decide

/-- C7 (amended to inputs that are not blank): on every input with a
nonempty trimmed form, `validateUsername` accepts exactly the claimed
username shape of the trimmed input — length 3 to 50, only
alphanumerics, underscores and hyphens, first and last characters
alphanumeric — and all the boundary examples behave as claimed. -/
theorem C7_username_validation :
    (∀ s : String, trimChars s.toList ≠ [] →
      (validateUsername s = true ↔
        claimedUsernameShape (trimChars s.toList) = true)) ∧
    validateUsername "al" = false ∧
    validateUsername "aaa" = true ∧
    validateUsername (String.mk (List.replicate 50 'a')) = true ∧
    validateUsername (String.mk (List.replicate 51 'a')) = false ∧
    validateUsername "_alice" = false ∧
    validateUsername "alice_" = false ∧
    validateUsername "-alice" = false ∧
    validateUsername "alice-" = false ∧
    validateUsername "alice" = true ∧
    validateUsername "alice-2" = true ∧
    validateUsername "a1_b2" = true := by
  refine ⟨?_, by decide, by decide, by decide, by decide, by decide, by decide,
    by decide, by decide, by decide, by decide, by decide⟩
  intro s h
  have h2 : trimChars s.data ≠ [] := h
  obtain ⟨c, rest, hcr⟩ : ∃ c rest, trimChars s.data = c :: rest := by
    cases hl : trimChars s.data with
    | nil => exact absurd hl h2
    | cons c rest => exact ⟨c, rest, rfl⟩
  have e1 : validateUsername s
      = (usernameRegexAccepts (c :: rest) &&
          decide (3 ≤ (c :: rest).length) && decide ((c :: rest).length ≤ 50)) := by
    simp [validateUsername, hcr]
  have hcr2 : trimChars s.toList = c :: rest := hcr
  rw [hcr2, e1, usernameRegex_eq]
  simp only [claimedUsernameShape, Bool.and_eq_true, decide_eq_true_eq]
  tauto

/-- Witness for C7 at a concrete non-blank input. -/
theorem C7_username_validation_witness :
    validateUsername "alice" = true ↔
      claimedUsernameShape (trimChars "alice".toList) = true :=
  C7_username_validation.1 "alice" (by decide)

/-- A backup payload carrying both an inner encrypted entry and a legacy
`mnemonic` entry, with no `version` entry. -/
def bothMarkersPayload : Settings.Json :=
  Settings.Json.obj
    [("recovery-phrase.txt.enc", Settings.Json.str "ENC"),
     ("mnemonic", Settings.Json.str "legacy words")]

/-- A parse function mapping the selected text to `bothMarkersPayload`. -/
def bothMarkersParse : String → Option Settings.Json :=
  fun s => if s = "PAYLOAD" then some bothMarkersPayload else none

/-- C6 counterexample: a payload that parses as JSON with no `version`
field and a truthy `mnemonic` field is nonetheless sent to the restore
operation (its inner `recovery-phrase.txt.enc` entry wins), not rejected
with the incompatible-version message. -/
theorem C6_counterexample :
    Settings.truthyAt bothMarkersPayload "version" = false ∧
    Settings.truthyAt bothMarkersPayload "mnemonic" = true ∧
    Settings.handleRestorePasswordSubmit (some "PAYLOAD") bothMarkersParse
      = Settings.RestoreAction.restoreInner (Settings.Json.str "ENC") := by
  refine ⟨rfl, rfl, rfl⟩

/-- C6 (amended to payloads without a truthy `recovery-phrase.txt.enc`
entry): every payload that parses as JSON, has no truthy
`recovery-phrase.txt.enc` entry and no truthy `version` field but a
truthy `encrypted` or `mnemonic` field, is rejected with the distinct
incompatible-version message and the normal restore operation is not
invoked on it. -/
theorem C6_legacy_backup_rejected :
    ∀ (f : String) (parse : String → Option Settings.Json) (j : Settings.Json),
      parse f = some j →
      Settings.truthyAt j "recovery-phrase.txt.enc" = false →
      Settings.truthyAt j "version" = false →
      (Settings.truthyAt j "encrypted" = true ∨ Settings.truthyAt j "mnemonic" = true) →
      Settings.handleRestorePasswordSubmit (some f) parse
        = Settings.RestoreAction.incompatible "Incompatible Backup Version" := by
  intro f parse j hp h1 h2 h3
  rcases h3 with h | h <;>
    simp [Settings.handleRestorePasswordSubmit, hp, h1, h2, h]

/-- A purely legacy payload: a `mnemonic` entry and nothing else. -/
def legacyOnlyPayload : Settings.Json :=
  Settings.Json.obj [("mnemonic", Settings.Json.str "legacy words")]

/-- A parse function mapping the selected text to `legacyOnlyPayload`. -/
def legacyOnlyParse : String → Option Settings.Json :=
  fun s => if s = "LEGACY" then some legacyOnlyPayload else none

/-- Witness for C6 at a concrete legacy payload. -/
theorem C6_legacy_backup_rejected_witness :
    Settings.handleRestorePasswordSubmit (some "LEGACY") legacyOnlyParse
      = Settings.RestoreAction.incompatible "Incompatible Backup Version" :=
  C6_legacy_backup_rejected "LEGACY" legacyOnlyParse legacyOnlyPayload
    (by simp [legacyOnlyParse]) rfl rfl (Or.inr rfl)

/-- C1 counterexample: `signMessage` belongs to the claimed family, yet
when its SDK call fails once with an unauthenticated-signature message
and would succeed on a second attempt, the orchestrator returns null,
invokes the SDK operation once (not twice) and `login()` zero times
(not once). -/
theorem C1_counterexample :
    Ctx.deriveRetrySig "Not authenticated - login required" = true ∧
    Ctx.signMessage
      ⟨true, [Except.error "Not authenticated - login required", Except.ok "0xsig"],
        [Except.ok ()]⟩ (some sampleUser)
      = (Except.ok none, { opCalls := 1, loginCalls := 0 }) :=
  ⟨by decide, rfl⟩

/-- C1 (amended: `signMessage` excepted): for `deriveWallet`,
`getAddress`, `getBackupStatus` and `createBackup`, an SDK call failing
exactly once with the unauthenticated signature and succeeding on the
retry makes the orchestrator return the successful result with the SDK
operation invoked exactly twice and `login()` exactly once;
`signMessage` instead swallows the failure and returns null with one
SDK invocation and no login. -/
theorem C1_retry_once_on_auth_error :
    ∀ (e : String) (w : DerivedWallet) (a : String) (bs : BackupStatus)
      (blob sig pw : String) (u : W3pkUser),
      Ctx.deriveRetrySig e = true →
      Ctx.getAddressRetrySig e = true →
      Ctx.backupRetrySig e = true →
      Ctx.deriveWallet ⟨true, [Except.error e, Except.ok w], [Except.ok ()]⟩ (some u)
          = (Except.ok w, { opCalls := 2, loginCalls := 1 }) ∧
      Ctx.getAddress ⟨true, [Except.error e, Except.ok a], [Except.ok ()]⟩ (some u)
          = (Except.ok a, { opCalls := 2, loginCalls := 1 }) ∧
      Ctx.getBackupStatus ⟨true, [Except.error e, Except.ok bs], [Except.ok ()]⟩
          true (some u) true
          = (Except.ok bs, { opCalls := 2, loginCalls := 1 }) ∧
      Ctx.createBackup ⟨true, [Except.error e, Except.ok blob], [Except.ok ()]⟩
          true (some u) true pw
          = (Except.ok blob, { opCalls := 2, loginCalls := 1 }) ∧
      Ctx.signMessage ⟨true, [Except.error e, Except.ok sig], [Except.ok ()]⟩ (some u)
          = (Except.ok none, { opCalls := 1, loginCalls := 0 }) := by
  intro e w a bs blob sig pw u h1 h2 h3
  refine ⟨?_, ?_, ?_, ?_, ?_⟩
  · simp [Ctx.deriveWallet, Ctx.deriveCatch, takeOp, takeLogin, h1]
  · simp [Ctx.getAddress, Ctx.getAddressCatch, takeOp, takeLogin, h2]
  · simp [Ctx.getBackupStatus, Ctx.getBackupStatusCatch, takeOp, takeLogin, h3]
  · simp [Ctx.createBackup, Ctx.createBackupCatch, takeOp, takeLogin, h3]
  · simp [Ctx.signMessage, takeOp, takeLogin]

/-- Witness for C1 at a concrete unauthenticated-signature message. -/
theorem C1_retry_once_on_auth_error_witness :
    Ctx.deriveRetrySig "Not authenticated - login required" = true ∧
    Ctx.deriveWallet
      ⟨true, [Except.error "Not authenticated - login required",
        Except.ok { address := "0xW" }], [Except.ok ()]⟩ (some sampleUser)
      = (Except.ok { address := "0xW" }, { opCalls := 2, loginCalls := 1 }) :=
  ⟨by decide,
    (C1_retry_once_on_auth_error "Not authenticated - login required"
      { address := "0xW" } "0xA" sampleStatus "blob" "sig" "pw" sampleUser
      (by decide) (by decide) (by decide)).1⟩

/-- C4 counterexample: `signMessage` belongs to the claimed family, yet
an SDK failure that does not match the unauthenticated signature does
not propagate to the caller — the call returns null. -/
theorem C4_counterexample :
    Ctx.deriveRetrySig "Invalid message format" = false ∧
    Ctx.signMessage ⟨true, [Except.error "Invalid message format"], []⟩
      (some sampleUser)
      = (Except.ok none, { opCalls := 1, loginCalls := 0 }) :=
  ⟨by decide, rfl⟩

/-- C4 (amended: `signMessage` excepted): for `deriveWallet`,
`getAddress`, `getBackupStatus` and `createBackup`, an SDK failure not
matching the unauthenticated signature is invoked exactly once, no
forced login occurs, and the error propagates unchanged; `signMessage`
also invokes the SDK exactly once with no login, but swallows the error
and returns null instead of propagating it. -/
theorem C4_no_retry_on_unrelated_error :
    ∀ (e pw : String) (u : W3pkUser),
      Ctx.deriveRetrySig e = false →
      Ctx.getAddressRetrySig e = false →
      Ctx.backupRetrySig e = false →
      Ctx.deriveWallet ⟨true, [Except.error e], []⟩ (some u)
          = (Except.error e, { opCalls := 1, loginCalls := 0 }) ∧
      Ctx.getAddress ⟨true, [Except.error e], []⟩ (some u)
          = (Except.error e, { opCalls := 1, loginCalls := 0 }) ∧
      Ctx.getBackupStatus ⟨true, [Except.error e], []⟩ true (some u) true
          = (Except.error e, { opCalls := 1, loginCalls := 0 }) ∧
      Ctx.createBackup ⟨true, [Except.error e], []⟩ true (some u) true pw
          = (Except.error e, { opCalls := 1, loginCalls := 0 }) ∧
      Ctx.signMessage ⟨true, [Except.error e], []⟩ (some u)
          = (Except.ok none, { opCalls := 1, loginCalls := 0 }) := by
  intro e pw u h1 h2 h3
  refine ⟨?_, ?_, ?_, ?_, ?_⟩
  · simp [Ctx.deriveWallet, Ctx.deriveCatch, takeOp, takeLogin, h1]
  · simp [Ctx.getAddress, Ctx.getAddressCatch, takeOp, takeLogin, h2]
  · simp [Ctx.getBackupStatus, Ctx.getBackupStatusCatch, takeOp, takeLogin, h3]
  · simp [Ctx.createBackup, Ctx.createBackupCatch, takeOp, takeLogin, h3]
  · simp [Ctx.signMessage, takeOp, takeLogin]

/-- Witness for C4 at a concrete validation-style message. -/
theorem C4_no_retry_on_unrelated_error_witness :
    Ctx.deriveRetrySig "Invalid password" = false ∧
    Ctx.deriveWallet ⟨true, [Except.error "Invalid password"], []⟩ (some sampleUser)
      = (Except.error "Invalid password", { opCalls := 1, loginCalls := 0 }) :=
  ⟨by decide,
    (C4_no_retry_on_unrelated_error "Invalid password" "pw" sampleUser
      (by decide) (by decide) (by decide)).1⟩

/-- A legacy-provider environment in which every external call succeeds
and the abstract `secrets.share` tags each share with its index and the
secret it splits. -/
def legacyCexEnv : LegacyCtx.LegacyEnv :=
  { isAuthenticated := true
    user := some sampleUser
    hasActiveSession := true
    loginResult := Except.ok ()
    passkeyBackup := Except.ok "passkey-backup-json"
    restoreMnemonic := fun _ => Except.ok "abc"
    share := fun secretHex n _ =>
      (List.range n).map (fun i => "piece" ++ toString i ++ "-" ++ secretHex)
    uuids := ["u0", "u1", "u2"]
    nowIso := "2026-01-01" }

/-- C2 counterexample: the legacy `setupSocialRecovery` of
src/src/context/W3PK.tsx, called with no password argument, produces
guardian shares without ever collecting a password, and the secret it
splits is the hex encoding of the raw mnemonic — not a
password-encrypted backup. -/
theorem C2_counterexample :
    LegacyCtx.asciiHex "abc" = "616263" ∧
    (LegacyCtx.setupSocialRecovery legacyCexEnv
      [{ name := "G1" }, { name := "G2" }, { name := "G3" }] 2 none).prompted = false ∧
    (LegacyCtx.setupSocialRecovery legacyCexEnv
      [{ name := "G1" }, { name := "G2" }, { name := "G3" }] 2 none).splitSecretArg
      = some "616263" ∧
    (LegacyCtx.setupSocialRecovery legacyCexEnv
      [{ name := "G1" }, { name := "G2" }, { name := "G3" }] 2 none).result
      = Except.ok
        [{ id := "u0", name := "G1", shareEncrypted := "piece0-616263"
           status := GuardianStatus.pending, addedAt := "2026-01-01" },
         { id := "u1", name := "G2", shareEncrypted := "piece1-616263"
           status := GuardianStatus.pending, addedAt := "2026-01-01" },
         { id := "u2", name := "G3", shareEncrypted := "piece2-616263"
           status := GuardianStatus.pending, addedAt := "2026-01-01" }] :=
  ⟨rfl, rfl, rfl, rfl⟩

/-- C2 (amended to the SocialRecoveryManager-based provider): in the
current provider, a missing or empty password argument consults the
interactive prompt; when no password is obtained anywhere the operation
fails before anything is split; with a password (supplied or prompted),
the backup is created encrypted under that password and the manager
splits exactly that encrypted backup text; and every guardian record
produced by the manager carries one share of the backup text it was
given.  The legacy inline provider violates the original claim (see the
counterexample). -/
theorem C2_password_encrypted_backup_shares :
    ∀ (env : Ctx.SetupEnv) (gs : List GuardianInput) (thr : Nat) (u : W3pkUser),
      env.isAuthenticated = true → env.user = some u → env.hasActiveSession = true →
      ((env.promptResult = none →
        (Ctx.setupSocialRecovery env gs thr none).prompted = true ∧
        (Ctx.setupSocialRecovery env gs thr none).result
          = Except.error "Password is required for social recovery setup" ∧
        (Ctx.setupSocialRecovery env gs thr none).managerBackupArg = none) ∧
      (env.promptResult = some "" →
        (Ctx.setupSocialRecovery env gs thr none).prompted = true ∧
        (Ctx.setupSocialRecovery env gs thr none).result
          = Except.error "Password is required for social recovery setup" ∧
        (Ctx.setupSocialRecovery env gs thr none).managerBackupArg = none) ∧
      (∀ p bj, p ≠ "" → env.createPasswordBackup p = Except.ok bj →
        (Ctx.setupSocialRecovery env gs thr (some p)).prompted = false ∧
        (Ctx.setupSocialRecovery env gs thr (some p)).managerBackupArg = some bj ∧
        (Ctx.setupSocialRecovery env gs thr (some p)).result
          = Except.ok (Ctx.managerSetupSocialRecovery env.split bj
              u.ethereumAddress gs thr)) ∧
      (∀ p bj, env.promptResult = some p → p ≠ "" →
        env.createPasswordBackup p = Except.ok bj →
        (Ctx.setupSocialRecovery env gs thr none).prompted = true ∧
        (Ctx.setupSocialRecovery env gs thr none).managerBackupArg = some bj ∧
        (Ctx.setupSocialRecovery env gs thr none).result
          = Except.ok (Ctx.managerSetupSocialRecovery env.split bj
              u.ethereumAddress gs thr)) ∧
      (∀ (split : String → Nat → Nat → List String) (bj ea : String)
          (gs2 : List GuardianInput) (thr2 : Nat) (g : Guardian),
        g ∈ Ctx.managerSetupSocialRecovery split bj ea gs2 thr2 →
        ∃ i, g.shareEncrypted = (split bj gs2.length thr2).getD i "")) := by
  intro env gs thr u h1 h2 h3
  refine ⟨?_, ?_, ?_, ?_, ?_⟩
  · intro hp
    refine ⟨?_, ?_, ?_⟩ <;>
      simp [Ctx.setupSocialRecovery, Ctx.jsOrPrompt, h1, h2, h3, hp]
  · intro hp
    refine ⟨?_, ?_, ?_⟩ <;>
      simp [Ctx.setupSocialRecovery, Ctx.jsOrPrompt, h1, h2, h3, hp]
  · intro p bj hpne hcb
    refine ⟨?_, ?_, ?_⟩ <;>
      simp [Ctx.setupSocialRecovery, Ctx.jsOrPrompt, h1, h2, h3, hpne, hcb]
  · intro p bj hp hpne hcb
    refine ⟨?_, ?_, ?_⟩ <;>
      simp [Ctx.setupSocialRecovery, Ctx.jsOrPrompt, h1, h2, h3, hp, hpne, hcb]
  · intro split bj ea gs2 thr2 g hg
    simp only [Ctx.managerSetupSocialRecovery, List.mem_map] at hg
    obtain ⟨p, _, hpe⟩ := hg
    exact ⟨p.1, by rw [← hpe]⟩

/-- A current-provider environment with a scripted prompt and a
password-keyed backup call. -/
def currentCexEnv : Ctx.SetupEnv :=
  { isAuthenticated := true
    user := some sampleUser
    hasActiveSession := true
    loginResult := Except.ok ()
    promptResult := some "prompted-pw"
    createPasswordBackup := fun pw => Except.ok ("enc-backup-" ++ pw)
    split := fun s n _ => List.replicate n s }

/-- Witness for C2: with a supplied nonempty password, no prompt is
shown and the text handed to the manager is the password-encrypted
backup. -/
theorem C2_password_encrypted_backup_shares_witness :
    (Ctx.setupSocialRecovery currentCexEnv [{ name := "G1" }] 1
      (some "hunter2")).prompted = false ∧
    (Ctx.setupSocialRecovery currentCexEnv [{ name := "G1" }] 1
      (some "hunter2")).managerBackupArg = some "enc-backup-hunter2" :=
  have h := C2_password_encrypted_backup_shares currentCexEnv [{ name := "G1" }] 1
    sampleUser rfl rfl rfl
  have h3 := h.2.2.1 "hunter2" "enc-backup-hunter2" (by decide) rfl
  ⟨h3.1, h3.2.1⟩

/-- C3: under the threshold secret-sharing contract of the external
secrets.js library (modelled from the spec: combining any list holding
at least `threshold` distinct setup shares reconstructs the secret,
fewer distinct shares never do) and the address-derivation contract of
ethers (the true secret derives the recorded address, any other string
does not), `recoverFromGuardians` on a `(threshold=3, totalGuardians=5)`
configuration succeeds exactly when at least 3 distinct valid shares are
supplied; fewer share strings than the threshold fail with the specific
need-more-shares message; and a reconstructed secret whose derived
address does not match the recorded address is reported as failure. -/
theorem C3_threshold_recovery :
    ∀ (env : LegacyCtx.RecoverEnv) (cfg : SocialRecoveryConfig)
      (setupShares : List String) (secret addr : String)
      (shareData extracted : List String),
      env.config = some cfg →
      cfg.threshold = 3 →
      cfg.totalGuardians = 5 →
      setupShares.length = 5 →
      (∀ l : List String, (∀ x ∈ l, x ∈ setupShares) → 3 ≤ l.dedup.length →
        env.combine l = some secret) →
      (∀ l : List String, l.dedup.length < 3 → env.combine l ≠ some secret) →
      env.fromPhrase secret = some addr →
      lowerStr addr = lowerStr cfg.ethereumAddress →
      (∀ m a, m ≠ secret → env.fromPhrase m = some a →
        lowerStr a ≠ lowerStr cfg.ethereumAddress) →
      LegacyCtx.extractShares env.parseShare shareData = some extracted →
      (∀ x ∈ extracted, x ∈ setupShares) →
      (((∃ m a, LegacyCtx.recoverFromGuardians env shareData = Except.ok (m, a)) ↔
          3 ≤ extracted.dedup.length) ∧
        (3 ≤ extracted.dedup.length →
          LegacyCtx.recoverFromGuardians env shareData = Except.ok (secret, addr)) ∧
        (shareData.length < cfg.threshold →
          LegacyCtx.recoverFromGuardians env shareData =
            Except.error ("Need at least " ++ toString cfg.threshold ++
              " shares, got " ++ toString shareData.length)) ∧
        (∀ m a, ¬shareData.length < cfg.threshold →
          env.combine extracted = some m → env.fromPhrase m = some a →
          lowerStr a ≠ lowerStr cfg.ethereumAddress →
          LegacyCtx.recoverFromGuardians env shareData =
            Except.error "Recovered address does not match - invalid shares")) := by
  intro env cfg setupShares secret addr shareData extracted
    hcfg hthr htot hlen Hgood Hbad Hfrom Haddr Hwrong Hext Hmem
  have hlen2 : extracted.length = shareData.length :=
    extractShares_length env.parseShare shareData extracted Hext
  have hded : extracted.dedup.length ≤ extracted.length :=
    List.Sublist.length_le (List.dedup_sublist extracted)
  have hb : 3 ≤ extracted.dedup.length →
      LegacyCtx.recoverFromGuardians env shareData = Except.ok (secret, addr) := by
    intro h3
    have hnl : ¬shareData.length < cfg.threshold := by rw [hthr]; omega
    have hcomb := Hgood extracted Hmem h3
    simp only [LegacyCtx.recoverFromGuardians, hcfg, if_neg hnl, Hext, hcomb, Hfrom]
    simp [Haddr]
  have hc : shareData.length < cfg.threshold →
      LegacyCtx.recoverFromGuardians env shareData =
        Except.error ("Need at least " ++ toString cfg.threshold ++
          " shares, got " ++ toString shareData.length) := by
    intro hlt
    simp only [LegacyCtx.recoverFromGuardians, hcfg, if_pos hlt]
  have hd : ∀ m a, ¬shareData.length < cfg.threshold →
      env.combine extracted = some m → env.fromPhrase m = some a →
      lowerStr a ≠ lowerStr cfg.ethereumAddress →
      LegacyCtx.recoverFromGuardians env shareData =
        Except.error "Recovered address does not match - invalid shares" := by
    intro m a hnl hcomb hfp hne
    simp only [LegacyCtx.recoverFromGuardians, hcfg, if_neg hnl, Hext, hcomb, hfp,
      if_pos hne]
  refine ⟨⟨?_, fun h3 => ⟨secret, addr, hb h3⟩⟩, hb, hc, hd⟩
  rintro ⟨m, a, hok⟩
  by_contra hnd
  push_neg at hnd
  by_cases hlt : shareData.length < cfg.threshold
  · rw [hc hlt] at hok
    exact Except.noConfusion hok
  · have hcne := Hbad extracted hnd
    cases hcomb : env.combine extracted with
    | none =>
      simp only [LegacyCtx.recoverFromGuardians, hcfg, if_neg hlt, Hext, hcomb] at hok
      exact Except.noConfusion hok
    | some m2 =>
      have hm2 : m2 ≠ secret := fun he => hcne (he ▸ hcomb)
      cases hfp : env.fromPhrase m2 with
      | none =>
        simp only [LegacyCtx.recoverFromGuardians, hcfg, if_neg hlt, Hext, hcomb,
          hfp] at hok
        exact Except.noConfusion hok
      | some a2 =>
        have hne2 := Hwrong m2 a2 hm2 hfp
        simp only [LegacyCtx.recoverFromGuardians, hcfg, if_neg hlt, Hext, hcomb,
          hfp, if_pos hne2] at hok
        exact Except.noConfusion hok

/-- The configuration a `(threshold=3, totalGuardians=5)` setup records. -/
def c3Cfg : SocialRecoveryConfig :=
  { threshold := 3, totalGuardians := 5, guardians := []
    createdAt := "t0", ethereumAddress := "0xabcd" }

/-- The five setup shares of the concrete instantiation. -/
def c3Shares : List String := ["s1", "s2", "s3", "s4", "s5"]

/-- A concrete recovery environment satisfying the secret-sharing and
address-derivation contracts for `c3Cfg` and `c3Shares`. -/
def c3Env : LegacyCtx.RecoverEnv :=
  { config := some c3Cfg
    parseShare := fun s => if s ∈ c3Shares then some s else none
    combine := fun l => if 3 ≤ l.dedup.length then some "seed words" else none
    fromPhrase := fun m => if m = "seed words" then some "0xABCD" else none }

/-- Witness for C3: three distinct valid shares recover the secret and
its matching address; two shares fail with the need-more-shares error. -/
theorem C3_threshold_recovery_witness :
    LegacyCtx.recoverFromGuardians c3Env ["s1", "s2", "s3"]
      = Except.ok ("seed words", "0xABCD") ∧
    LegacyCtx.recoverFromGuardians c3Env ["s1", "s2"]
      = Except.error "Need at least 3 shares, got 2" := by
  have ha := C3_threshold_recovery c3Env c3Cfg c3Shares "seed words" "0xABCD"
    ["s1", "s2", "s3"] ["s1", "s2", "s3"] rfl rfl rfl rfl
    (by intro l _ h3; simp only [c3Env]; rw [if_pos h3])
    (by intro l hlt; simp only [c3Env]; rw [if_neg (by omega)]; simp)
    rfl (by decide)
    (by intro m a hm hf; simp only [c3Env] at hf; rw [if_neg hm] at hf;
        exact Option.noConfusion hf)
    (by decide) (by decide)
  have hb := C3_threshold_recovery c3Env c3Cfg c3Shares "seed words" "0xABCD"
    ["s1", "s2"] ["s1", "s2"] rfl rfl rfl rfl
    (by intro l _ h3; simp only [c3Env]; rw [if_pos h3])
    (by intro l hlt; simp only [c3Env]; rw [if_neg (by omega)]; simp)
    rfl (by decide)
    (by intro m a hm hf; simp only [c3Env] at hf; rw [if_neg hm] at hf;
        exact Option.noConfusion hf)
    (by decide) (by decide)
  exact ⟨ha.2.1 (by decide), hb.2.2.1 (by decide)⟩

end Genji
